import Mathlib

/-!
Verification development for the touchpad-mobile host-side touch pipeline.

Each definition is a shallow embedding of one function of the Rust source
(file and function named in its doc comment).  Machine integers are modelled
as `Int`/`Nat`; where two's-complement wraparound can matter it is made
explicit via `i64wrap`/`toI32`/`% 2 ^ 32`.  `f32`/`f64` arithmetic of the
emitter and the loss rate is modelled as exact rational arithmetic (the
integer rounding step is modelled; floating-point representation error is
not).  Stateful methods become functions `state → args → state × result`.
-/

namespace Touchpad

/-! ## Linux input-event constants (values of the evdev codes used by
`server/core-kit/src/driver.rs`; these numeric values come from the Linux
input-event-codes header that the `evdev` crate re-exports). -/

def EV_SYN : Int := 0
def EV_KEY : Int := 1
def EV_ABS : Int := 3
def SYN_REPORT : Int := 0
def BTN_TOUCH : Int := 330
def BTN_TOOL_FINGER : Int := 325
def BTN_TOOL_QUINTTAP : Int := 328
def BTN_TOOL_DOUBLETAP : Int := 333
def BTN_TOOL_TRIPLETAP : Int := 334
def BTN_TOOL_QUADTAP : Int := 335
def ABS_X : Int := 0
def ABS_Y : Int := 1
def ABS_MT_SLOT : Int := 47
def ABS_MT_POSITION_X : Int := 53
def ABS_MT_POSITION_Y : Int := 54
def ABS_MT_TRACKING_ID : Int := 57

/-- Embedding of `evdev::InputEvent::new(event_type, code, value)`. -/
structure InputEvent where
  etype : Int
  code : Int
  value : Int
deriving DecidableEq, Repr

/-- `TouchStatus` from `server/core-kit/src/driver.rs`. -/
inductive TouchStatus where
  | down
  | up
  | move
deriving DecidableEq, Repr

/-- `TouchPoint` from `server/core-kit/src/driver.rs` (fields are `i32`,
modelled as `Int`). -/
structure TouchPoint where
  slot : Int
  tracking_id : Int
  x : Int
  y : Int
  status : TouchStatus
deriving DecidableEq, Repr

/-- The mutable state of `Driver` from `server/core-kit/src/driver.rs`
(the `VirtualDevice` handle and the `width`/`height` fields play no part in
the claims and are omitted; position maps are modelled as functions to
`Option`). -/
structure Driver where
  touched_slots : Finset Int
  last_input_position : Int → Option (Int × Int)
  last_output_position : Int → Option (Int × Int)
  sensitivity : ℚ
  invert_x : Bool
  invert_y : Bool

/-- `HashMap::insert` on the position maps. -/
def mapInsert (m : Int → Option (Int × Int)) (k : Int) (v : Int × Int) :
    Int → Option (Int × Int) :=
  fun t => if t = k then some v else m t

/-- `HashMap::remove` on the position maps. -/
def mapRemove (m : Int → Option (Int × Int)) (k : Int) :
    Int → Option (Int × Int) :=
  fun t => if t = k then none else m t

/-- The state part of `Driver::new(width, height)`: empty slot set, empty
position maps, `sensitivity = 1.0`, inversion off. -/
def Driver.new : Driver :=
  { touched_slots := ∅
    last_input_position := fun _ => none
    last_output_position := fun _ => none
    sensitivity := 1
    invert_x := false
    invert_y := false }

/-- `Driver::set_sensitivity`. -/
def Driver.set_sensitivity (st : Driver) (k : ℚ) : Driver :=
  { st with sensitivity := k }

/-- `Driver::set_invert_x`. -/
def Driver.set_invert_x (st : Driver) (b : Bool) : Driver :=
  { st with invert_x := b }

/-- `Driver::set_invert_y`. -/
def Driver.set_invert_y (st : Driver) (b : Bool) : Driver :=
  { st with invert_y := b }

/-- Rust's `f32::round`: round half away from zero. -/
def roundHalfAway (q : ℚ) : Int :=
  if 0 ≤ q then ⌊q + 1 / 2⌋ else -⌊-q + 1 / 2⌋

/-- `Driver::emit_point_down` (driver.rs lines 193-225): store the raw
coordinates in both position maps and emit SLOT / TRACKING_ID / MT position
/ single-touch position events. -/
def Driver.emit_point_down (st : Driver) (p : TouchPoint) :
    Driver × List InputEvent :=
  ({ st with
      last_input_position := mapInsert st.last_input_position p.slot (p.x, p.y)
      last_output_position := mapInsert st.last_output_position p.slot (p.x, p.y) },
   [⟨EV_ABS, ABS_MT_SLOT, p.slot⟩,
    ⟨EV_ABS, ABS_MT_TRACKING_ID, p.tracking_id⟩,
    ⟨EV_ABS, ABS_MT_POSITION_X, p.x⟩,
    ⟨EV_ABS, ABS_MT_POSITION_Y, p.y⟩,
    ⟨EV_ABS, ABS_X, p.x⟩,
    ⟨EV_ABS, ABS_Y, p.y⟩])

/-- `Driver::emit_point_up` (driver.rs lines 228-236): drop the slot from
both position maps and emit SLOT / TRACKING_ID(-1). -/
def Driver.emit_point_up (st : Driver) (p : TouchPoint) :
    Driver × List InputEvent :=
  ({ st with
      last_input_position := mapRemove st.last_input_position p.slot
      last_output_position := mapRemove st.last_output_position p.slot },
   [⟨EV_ABS, ABS_MT_SLOT, p.slot⟩,
    ⟨EV_ABS, ABS_MT_TRACKING_ID, -1⟩])

/-- `Driver::emit_point_move` (driver.rs lines 239-297): scale the input
delta by the sensitivity (with optional inversion), accumulate onto the last
output position, round, store, and emit the position events; SLOT and
TRACKING_ID are prepended only when more than one slot is touched. -/
def Driver.emit_point_move (st : Driver) (p : TouchPoint) :
    Driver × List InputEvent :=
  let dflt : Int × Int := (p.x, p.y)
  let lastIn := (st.last_input_position p.slot).getD dflt
  let lastOut := (st.last_output_position p.slot).getD dflt
  let delta_x : Int := p.x - lastIn.1
  let delta_y : Int := p.y - lastIn.2
  let scaled_delta_x : ℚ :=
    if st.invert_x then -(delta_x : ℚ) * st.sensitivity
    else (delta_x : ℚ) * st.sensitivity
  let scaled_delta_y : ℚ :=
    if st.invert_y then -(delta_y : ℚ) * st.sensitivity
    else (delta_y : ℚ) * st.sensitivity
  let point_x : Int := roundHalfAway ((lastOut.1 : ℚ) + scaled_delta_x)
  let point_y : Int := roundHalfAway ((lastOut.2 : ℚ) + scaled_delta_y)
  ({ st with
      last_input_position := mapInsert st.last_input_position p.slot (p.x, p.y)
      last_output_position := mapInsert st.last_output_position p.slot (point_x, point_y) },
   (if 1 < st.touched_slots.card then
      [⟨EV_ABS, ABS_MT_SLOT, p.slot⟩, ⟨EV_ABS, ABS_MT_TRACKING_ID, p.tracking_id⟩]
    else []) ++
   [⟨EV_ABS, ABS_MT_POSITION_X, point_x⟩,
    ⟨EV_ABS, ABS_MT_POSITION_Y, point_y⟩,
    ⟨EV_ABS, ABS_X, point_x⟩,
    ⟨EV_ABS, ABS_Y, point_y⟩])

/-- The events pushed for the slot count that is left, first `match` of
`Driver::get_slot_changed_events` (driver.rs lines 171-179). -/
def slot_leave_events : Nat → List InputEvent
  | 0 => [⟨EV_KEY, BTN_TOUCH, 1⟩]
  | 1 => [⟨EV_KEY, BTN_TOOL_FINGER, 0⟩]
  | 2 => [⟨EV_KEY, BTN_TOOL_DOUBLETAP, 0⟩]
  | 3 => [⟨EV_KEY, BTN_TOOL_TRIPLETAP, 0⟩]
  | 4 => [⟨EV_KEY, BTN_TOOL_QUADTAP, 0⟩]
  | 5 => [⟨EV_KEY, BTN_TOOL_QUINTTAP, 0⟩]
  | _ => []

/-- The events pushed for the slot count that is entered, second `match` of
`Driver::get_slot_changed_events` (driver.rs lines 180-188). -/
def slot_enter_events : Nat → List InputEvent
  | 0 => [⟨EV_KEY, BTN_TOUCH, 0⟩]
  | 1 => [⟨EV_KEY, BTN_TOOL_FINGER, 1⟩]
  | 2 => [⟨EV_KEY, BTN_TOOL_DOUBLETAP, 1⟩]
  | 3 => [⟨EV_KEY, BTN_TOOL_TRIPLETAP, 1⟩]
  | 4 => [⟨EV_KEY, BTN_TOOL_QUADTAP, 1⟩]
  | 5 => [⟨EV_KEY, BTN_TOOL_QUINTTAP, 1⟩]
  | _ => []

/-- `Driver::get_slot_changed_events` (driver.rs lines 166-190). -/
def Driver.get_slot_changed_events (old_count new_count : Nat) :
    List InputEvent :=
  if old_count = new_count then []
  else slot_leave_events old_count ++ slot_enter_events new_count

/-- One iteration of the `for point in touche_points` loop of
`Driver::emit_multitouch` (driver.rs lines 141-154): Down inserts the slot
into the touched set before `emit_point_down`, Up removes it before
`emit_point_up`, Move leaves the touched set unchanged. -/
def Driver.emit_step (st : Driver) (p : TouchPoint) :
    Driver × List InputEvent :=
  match p.status with
  | .down =>
      Driver.emit_point_down
        { st with touched_slots := insert p.slot st.touched_slots } p
  | .up =>
      Driver.emit_point_up
        { st with touched_slots := st.touched_slots.erase p.slot } p
  | .move => Driver.emit_point_move st p

/-- The whole `for` loop of `Driver::emit_multitouch`, collecting events. -/
def Driver.emit_points : Driver → List TouchPoint → Driver × List InputEvent
  | st, [] => (st, [])
  | st, p :: ps =>
      let r1 := Driver.emit_step st p
      let r2 := Driver.emit_points r1.1 ps
      (r2.1, r1.2 ++ r2.2)

/-- `Driver::emit_multitouch` (driver.rs lines 138-164): process the batch,
append the slot-count key events computed from the touched-set size before
and after the batch, and close with one SYN_REPORT. -/
def Driver.emit_multitouch (st : Driver) (pts : List TouchPoint) :
    Driver × List InputEvent :=
  let old_slots_count := st.touched_slots.card
  let r := Driver.emit_points st pts
  let new_slots_count := r.1.touched_slots.card
  (r.1,
   r.2 ++ Driver.get_slot_changed_events old_slots_count new_slots_count ++
     [⟨EV_SYN, SYN_REPORT, 1⟩])

/-- The touch-event consumer loop (`TouchServer::touch_event_processor`,
touch_server.rs lines 186-193) calls `emit_multitouch` with a singleton
batch per received `TouchPoint`; this runs a whole event sequence that way. -/
def Driver.run_events : Driver → List TouchPoint → Driver × List InputEvent
  | st, [] => (st, [])
  | st, p :: ps =>
      let r1 := Driver.emit_multitouch st [p]
      let r2 := Driver.run_events r1.1 ps
      (r2.1, r1.2 ++ r2.2)

/-! ## Machine-integer helpers -/

/-- Two's-complement wraparound of Rust `i64` arithmetic (release mode). -/
def i64wrap (x : Int) : Int := (x + 2 ^ 63) % 2 ^ 64 - 2 ^ 63

/-- Rust `as i64` on a `u64` value (modelled as a `Nat` below `2 ^ 64`). -/
def u64AsI64 (n : Nat) : Int :=
  if n < 2 ^ 63 then (n : Int) else (n : Int) - 2 ^ 64

/-- Rust `as i32` on a `u32` value. -/
def toI32 (n : Nat) : Int :=
  if n % 2 ^ 32 < 2 ^ 31 then ((n % 2 ^ 32 : Nat) : Int)
  else ((n % 2 ^ 32 : Nat) : Int) - 2 ^ 32

/-! ## Latency tracker (`server/backend/src/latency.rs`) -/

/-- State of `RealtimeLatencyTracker` (latency.rs lines 8-25).  `u64`
counters are wrapped at `2 ^ 64` where the source could overflow. -/
structure RealtimeLatencyTracker where
  samples : List Nat
  max_samples : Nat
  clock_offset_ms : Int
  expected_seq : Nat
  total_packets : Nat
  lost_packets : Nat
  min_latency : Option Nat
  max_latency : Option Nat
deriving DecidableEq, Repr

/-- `RealtimeLatencyData` (latency.rs lines 159-174).  The `f64` loss rate
is modelled as an exact rational. -/
structure RealtimeLatencyData where
  current_latency_us : Nat
  avg_latency_us : Nat
  min_latency_us : Nat
  max_latency_us : Nat
  packet_loss_rate : ℚ
  total_packets : Nat
  seq : Nat
deriving DecidableEq, Repr

/-- `RealtimeLatencyTracker::new(window_size)`. -/
def RealtimeLatencyTracker.new (window_size : Nat) : RealtimeLatencyTracker :=
  { samples := []
    max_samples := window_size
    clock_offset_ms := 0
    expected_seq := 0
    total_packets := 0
    lost_packets := 0
    min_latency := none
    max_latency := none }

/-- `RealtimeLatencyTracker::set_clock_offset` (latency.rs lines 43-45). -/
def RealtimeLatencyTracker.set_clock_offset (st : RealtimeLatencyTracker)
    (offset_ms : Int) : RealtimeLatencyTracker :=
  { st with clock_offset_ms := offset_ms }

/-- `RealtimeLatencyTracker::reset` (latency.rs lines 48-55). -/
def RealtimeLatencyTracker.reset (st : RealtimeLatencyTracker) :
    RealtimeLatencyTracker :=
  { st with
      samples := [], expected_seq := 0, total_packets := 0
      lost_packets := 0, min_latency := none, max_latency := none }

/-- `RealtimeLatencyTracker::record_packet` (latency.rs lines 66-129).
`seq` is the `u32` sequence number, `phone_ts_ms` the client timestamp in
milliseconds (`i64`), `server_ts_us` the server receive time in
microseconds (`u64`).  Returns the updated tracker and the optional
sample. -/
def RealtimeLatencyTracker.record_packet (st : RealtimeLatencyTracker)
    (seq : Nat) (phone_ts_ms : Int) (server_ts_us : Nat) :
    RealtimeLatencyTracker × Option RealtimeLatencyData :=
  let total := (st.total_packets + 1) % 2 ^ 64
  let lost :=
    if 0 < st.expected_seq ∧ st.expected_seq < seq then
      (st.lost_packets + (seq - st.expected_seq)) % 2 ^ 64
    else st.lost_packets
  let expected := (seq + 1) % 2 ^ 32
  let phone_ts_us :=
    i64wrap (i64wrap (phone_ts_ms * 1000) - i64wrap (st.clock_offset_ms * 1000))
  let latency := i64wrap (u64AsI64 server_ts_us - phone_ts_us)
  let st1 := { st with
                total_packets := total, lost_packets := lost
                expected_seq := expected }
  if latency < 0 then (st1, none)
  else
    let latency_us := latency.toNat
    let minL :=
      match st.min_latency with
      | none => some latency_us
      | some m => if latency_us < m then some latency_us else some m
    let maxL :=
      match st.max_latency with
      | none => some latency_us
      | some m => if m < latency_us then some latency_us else some m
    let samples1 := st.samples ++ [latency_us]
    let samples2 :=
      if st.max_samples < samples1.length then samples1.drop 1 else samples1
    let avg := if samples2.isEmpty then 0 else samples2.sum / samples2.length
    let loss : ℚ := if 0 < total then (lost : ℚ) / (total : ℚ) * 100 else 0
    ({ st1 with samples := samples2, min_latency := minL, max_latency := maxL },
     some { current_latency_us := latency_us
            avg_latency_us := avg
            min_latency_us := minL.getD 0
            max_latency_us := maxL.getD 0
            packet_loss_rate := loss
            total_packets := total
            seq := seq })

/-! ## Protocol messages

The message envelope is generated from a protobuf schema that is not under
src/ (only the generated crate's callers are).  The variants and their
fields below follow spec section 4.1. -/

/-- `Welcome` message (spec 4.1). -/
structure Welcome where
  cert_der : List Nat
  ts_ms : Nat
deriving DecidableEq, Repr

/-- `Reject` message (spec 4.1). -/
structure Reject where
  reason : Int
deriving DecidableEq, Repr

/-- `HeartBeat` message (spec 4.1): no fields. -/
structure HeartBeat where
deriving DecidableEq, Repr

/-- `DiscoverValidation` message (spec 4.1). -/
structure DiscoverValidation where
  checksum : Nat
  send_ts : Nat
  device_name : String
  random_key : String
  width : Nat
  height : Nat
deriving DecidableEq, Repr

/-- `RegisterDevice` message (spec 4.1). -/
structure RegisterDevice where
  device_name : String
  ip : String
  width : Nat
  height : Nat
  send_ts : Int
deriving DecidableEq, Repr

/-- One pointer of a `TouchPacket` (spec 4.1): `{id, event_type, abs_x,
abs_y}` with `id`/`event_type` signed and the positions `u32`. -/
structure PointerData where
  id : Int
  event_type : Int
  abs_x : Nat
  abs_y : Nat
deriving DecidableEq, Repr

/-- `TouchPacket` message (spec 4.1). -/
structure TouchPacket where
  seq : Nat
  ts_ms : Int
  pointers : List PointerData
deriving DecidableEq, Repr

/-- `TuneSetting` (spec 3, data model): sensitivity and the two inversion
flags; the `f32` sensitivity is modelled as a rational. -/
structure TuneSetting where
  sensitivity : ℚ
  invert_x : Bool
  invert_y : Bool
deriving DecidableEq, Repr

/-- `SettingRequest` message (spec 4.1): an optional tagged value. -/
structure SettingRequest where
  value : Option TuneSetting
deriving DecidableEq, Repr

/-- `Exit` message (spec 4.1). -/
structure ExitMsg where
  ts_ms : Nat
deriving DecidableEq, Repr

/-- The tagged union `wrapper::Payload` of the envelope (spec 4.1). -/
inductive Payload where
  | welcome (w : Welcome)
  | reject (r : Reject)
  | heartBeat (h : HeartBeat)
  | discoverValidation (d : DiscoverValidation)
  | registerDevice (r : RegisterDevice)
  | touchPacket (t : TouchPacket)
  | settingRequest (s : SettingRequest)
  | exitMsg (e : ExitMsg)
deriving DecidableEq, Repr

/-- Modelled from the spec: the protobuf `ErrorCode` enum used in `Reject`
frames.  The .proto schema fixing the numeric values is not under src/;
the two codes named by the spec are given distinct nonzero values in the
order spec section 4.2 introduces them (proto3 reserves 0).  No theorem in
this file depends on the particular numbers. -/
inductive ErrorCode where
  | helloCheckSumMismatch
  | repeatedlyAddingDevices
deriving DecidableEq, Repr

/-- Modelled from the spec: `ErrorCode as i32`. -/
def ErrorCode.code : ErrorCode → Int
  | .helloCheckSumMismatch => 1
  | .repeatedlyAddingDevices => 2

/-! ## Frame codec (`src/touchpad-proto/src/codec.rs`) -/

/-- Modelled from the spec: a field-flattening serialization standing in
for the prost-generated `Wrapper::encode_to_vec` (the generated encoder is
not under src/): a variant tag followed by length-prefixed field data.
Only executability matters here; no theorem depends on the byte layout. -/
def encodeInt (i : Int) : List Nat :=
  if 0 ≤ i then [0, i.toNat] else [1, (-i).toNat]

/-- Modelled from the spec: string serialization helper for
`wrapperEncode`. -/
def encodeString (s : String) : List Nat :=
  s.length :: (s.toList.map Char.toNat)

/-- Modelled from the spec: byte-list serialization helper for
`wrapperEncode`. -/
def encodeBytes (l : List Nat) : List Nat := l.length :: l

/-- Modelled from the spec: the envelope serialization used by the `Ok`
branches of `wrap`. -/
def wrapperEncode : Payload → List Nat
  | .welcome w => 0 :: encodeBytes w.cert_der ++ [w.ts_ms]
  | .reject r => 1 :: encodeInt r.reason
  | .heartBeat _ => [2]
  | .discoverValidation d =>
      3 :: [d.checksum, d.send_ts] ++ encodeString d.device_name ++
        encodeString d.random_key ++ [d.width, d.height]
  | .registerDevice r =>
      4 :: encodeString r.device_name ++ encodeString r.ip ++
        [r.width, r.height] ++ encodeInt r.send_ts
  | .touchPacket t =>
      5 :: [t.seq] ++ encodeInt t.ts_ms ++ [t.pointers.length] ++
        t.pointers.flatMap
          (fun p => encodeInt p.id ++ encodeInt p.event_type ++ [p.abs_x, p.abs_y])
  | .settingRequest s =>
      match s.value with
      | none => [6, 0]
      | some v =>
          [6, 1, (v.sensitivity.num).natAbs, v.sensitivity.den,
           cond v.invert_x 1 0, cond v.invert_y 1 0]
  | .exitMsg e => [7, e.ts_ms]

/-- `wrap` (codec.rs lines 12-35): the downcast chain accepts only
`Welcome`, `Reject`, `HeartBeat`, `TouchPacket` and `DiscoverValidation`;
every other message type hits the `anyhow::bail!("unsupported message
type")` branch. -/
def wrap (msg : Payload) : Except String (List Nat) :=
  match msg with
  | .welcome _ => .ok (wrapperEncode msg)
  | .reject _ => .ok (wrapperEncode msg)
  | .heartBeat _ => .ok (wrapperEncode msg)
  | .touchPacket _ => .ok (wrapperEncode msg)
  | .discoverValidation _ => .ok (wrapperEncode msg)
  | _ => .error "unsupported message type"

/-- `varint::read_varint_async` (codec.rs lines 100-136) over a byte list:
incorporate the low 7 bits of each byte at the current shift (the `u32`
accumulator truncates at `2 ^ 32`), fail once `shift > 28`, stop on a clear
continuation bit.  Structural recursion on the stream replaces the source's
read loop. -/
def read_varint : List Nat → Nat → Nat → Except String (Nat × List Nat)
  | [], _, _ => .error "Unexpected end of stream while reading varint"
  | b :: rest, result, shift =>
      let result1 := (result ||| ((b &&& 0x7F) <<< shift)) % 2 ^ 32
      if 28 < shift then .error "Varint too long (maximum 5 bytes)"
      else if b &&& 0x80 = 0 then .ok (result1, rest)
      else read_varint rest result1 (shift + 7)

/-- `varint::read_exact_bytes_async` (codec.rs lines 155-173): take exactly
`length` bytes or fail if the stream ends first. -/
def read_exact_bytes (l : List Nat) (length : Nat) :
    Except String (List Nat × List Nat) :=
  if length ≤ l.length then .ok (l.take length, l.drop length)
  else .error "Unexpected end of stream while reading message bytes"

/-- `varint::read_message_with_length_prefix` (codec.rs lines 175-191):
read the varint length, reject 0 or more than 4096 before touching the
body, then read exactly that many body bytes.  Returns the body and the
unconsumed remainder of the stream. -/
def readPrefixedMessage (l : List Nat) :
    Except String (List Nat × List Nat) :=
  match read_varint l 0 0 with
  | .error e => .error e
  | .ok (message_length, rest) =>
      if message_length = 0 ∨ 4096 < message_length then
        .error ("Invalid message length: " ++ toString message_length)
      else read_exact_bytes rest message_length

/-- `varint::MAX_MESSAGE_LENGTH` (codec.rs line 203). -/
def MAX_MESSAGE_LENGTH : Nat := 4096

/-- `varint::is_valid_message_length` (codec.rs lines 205-207). -/
def is_valid_message_length (length : Nat) : Bool :=
  0 < length && length ≤ MAX_MESSAGE_LENGTH

/-! ## Touch server message handling (`server/backend/src/touch_server.rs`) -/

/-- Modelled from the spec: the protobuf `TouchEventType` enum.  The .proto
schema fixing the numeric values is not under src/; proto3 reserves 0 for
`Unspecified` and the remaining variants are numbered in the order the spec
names them.  The theorems below depend only on the codes being distinct
and on `try_from` being the partial inverse of `code`. -/
inductive TouchEventType where
  | unspecified
  | down
  | move
  | up
  | cancel
deriving DecidableEq, Repr

/-- Modelled from the spec: `TouchEventType as i32`. -/
def TouchEventType.code : TouchEventType → Int
  | .unspecified => 0
  | .down => 1
  | .move => 2
  | .up => 3
  | .cancel => 4

/-- Modelled from the spec: `TouchEventType::try_from(i32)` from the
prost-generated enum conversion. -/
def TouchEventType.try_from (n : Int) : Option TouchEventType :=
  if n = 0 then some .unspecified
  else if n = 1 then some .down
  else if n = 2 then some .move
  else if n = 3 then some .up
  else if n = 4 then some .cancel
  else none

/-- The body of the `for pointer in touch_packet.pointers` loop of
`ConnectedExector::handle_message` (touch_server.rs lines 548-569):
`tracking_id` is the pointer id unless the event type equals `Up`'s code;
the status comes from `try_from`, with `Unspecified` and unknown codes
skipped (`none`); `slot := id` and the `u32` positions are cast `as i32`. -/
def pointer_to_touch_point (pointer : PointerData) : Option TouchPoint :=
  let tracking_id :=
    if pointer.event_type ≠ TouchEventType.up.code then pointer.id else -1
  match TouchEventType.try_from pointer.event_type with
  | some .down =>
      some ⟨pointer.id, tracking_id, toI32 pointer.abs_x, toI32 pointer.abs_y, .down⟩
  | some .move =>
      some ⟨pointer.id, tracking_id, toI32 pointer.abs_x, toI32 pointer.abs_y, .move⟩
  | some .up =>
      some ⟨pointer.id, tracking_id, toI32 pointer.abs_x, toI32 pointer.abs_y, .up⟩
  | some .cancel =>
      some ⟨pointer.id, tracking_id, toI32 pointer.abs_x, toI32 pointer.abs_y, .up⟩
  | some .unspecified => none
  | none => none

/-- `Device` from `server/core-kit/src/device.rs`; the `IpAddr` is modelled
as its textual form. -/
structure Device where
  name : String
  ip : String
  width : Nat
  height : Nat
deriving DecidableEq, Repr

/-- The per-connection state touched by `ConnectedExector::handle_message`:
the shared admitted-device map, the shared latency tracker, and the events
pushed onto the touch-event channel. -/
structure ConnState where
  connected_device : String → Option Device
  tracker : RealtimeLatencyTracker
  touch_events : List TouchPoint

/-- `HashMap::insert` on the admitted-device map. -/
def devInsert (m : String → Option Device) (k : String) (v : Device) :
    String → Option Device :=
  fun t => if t = k then some v else m t

/-- `ConnectedExector::handle_message` (touch_server.rs lines 500-598) for
one inbound frame; `server_ts_us` is the value `get_timestamp_us()` returns
during this call.  The returned `Bool` is the `need_continue` flag.  The
`IpAddr::from_str` parse of `RegisterDevice.ip` is kept as the textual
address (no claim depends on the failure path), and the latency-display
channel is not modelled. -/
def handle_message (st : ConnState) (server_ts_us : Nat) (message : Payload) :
    ConnState × Bool :=
  match message with
  | .registerDevice device =>
      let client_send_ts := device.send_ts
      let dev : Device := ⟨device.device_name, device.ip, device.width, device.height⟩
      let server_recv_ts_ms := u64AsI64 (server_ts_us / 1000)
      let clock_offset_ms := i64wrap (client_send_ts - server_recv_ts_ms)
      ({ st with
          connected_device := devInsert st.connected_device dev.ip dev
          tracker := st.tracker.set_clock_offset clock_offset_ms },
       true)
  | .touchPacket touch_packet =>
      let tracker1 :=
        (st.tracker.record_packet touch_packet.seq touch_packet.ts_ms server_ts_us).1
      ({ st with
          tracker := tracker1
          touch_events :=
            st.touch_events ++ touch_packet.pointers.filterMap pointer_to_touch_point },
       true)
  | .settingRequest _ => (st, true)
  | .exitMsg _ => (st, false)
  | _ => (st, true)

/-- The `while let Ok(message) = ... receive_message()` loop of
`ConnectedExector::handle_stream` over a list of frames, each paired with
the server receive timestamp of its `handle_message` call; stops early when
`need_continue` is false. -/
def handle_stream : ConnState → List (Payload × Nat) → ConnState
  | st, [] => st
  | st, (msg, ts) :: rest =>
      let r := handle_message st ts msg
      if r.2 then handle_stream r.1 rest else r.1

/-! ## Discovery admission (`server/backend/src/discover_service.rs`) -/

/-- The fields of `DiscoverService` that the admission exchange reads:
the checksum seed, the admitted-device map and the certificate bytes
handed back in `Welcome`. -/
structure DiscoverService where
  checksum_seed : String
  listening_device : String → Option Device
  login_public_key : List Nat

/-- `DiscoverService::discover_validation_handler` (discover_service.rs
lines 85-131).  `hash` stands for the external `xxh3_64` digest (a pure
function of the byte string), `addr_ip` is the peer IP and `now` the
`Welcome` timestamp.  Returns the frames actually written to the stream
and `Ok(device)`/`Err` as `Option Device`.

In the duplicate-IP branch the source reads
`let _ = stream.send_message(&reject);` **without** `.await`
(discover_service.rs line 102): the send future is created and dropped
before being polled, so no frame is written on that path. -/
def discover_validation_handler (hash : String → Nat) (svc : DiscoverService)
    (dv : DiscoverValidation) (addr_ip : String) (now : Nat) :
    List Payload × Option Device :=
  let seed_checksum := hash svc.checksum_seed
  if dv.checksum = seed_checksum then
    if (svc.listening_device addr_ip).isSome then
      ([], none)
    else
      let device : Device := ⟨dv.device_name, addr_ip, dv.width, dv.height⟩
      ([.welcome ⟨svc.login_public_key, now⟩], some device)
  else
    ([.reject ⟨ErrorCode.helloCheckSumMismatch.code⟩], none)

/-- `DiscoverService::handle_client_connection` (discover_service.rs lines
133-167) after a frame has been received: a `DiscoverValidation` payload
goes to the handler, and on the handler's `Err` a generic
`Reject { reason: 1 }` is written; any other payload variant is dropped
with no reply. -/
def handle_client_connection (hash : String → Nat) (svc : DiscoverService)
    (payload : Payload) (addr_ip : String) (now : Nat) :
    List Payload × Option Device :=
  match payload with
  | .discoverValidation dv =>
      let r := discover_validation_handler hash svc dv addr_ip now
      match r.2 with
      | some device => (r.1, some device)
      | none => (r.1 ++ [.reject ⟨1⟩], none)
  | _ => ([], none)

/-- One admission connection as run by the accept loop of
`DiscoverService::start_confirm_server` (discover_service.rs lines
176-195): the exchange plus, on success, the insertion of the admitted
device into the map.  Returns the updated map and the frames written. -/
def admission_exchange (hash : String → Nat) (svc : DiscoverService)
    (payload : Payload) (addr_ip : String) (now : Nat) :
    (String → Option Device) × List Payload :=
  let r := handle_client_connection hash svc payload addr_ip now
  match r.2 with
  | some dev => (devInsert svc.listening_device addr_ip dev, r.1)
  | none => (svc.listening_device, r.1)

/-- `true` on the key-type events appended by `get_slot_changed_events`. -/
def isKeyEvent (e : InputEvent) : Bool := e.etype == EV_KEY

/-- The values carried by the `ABS_MT_POSITION_X` events of a batch. -/
def mtPositionXValues (evs : List InputEvent) : List Int :=
  evs.filterMap fun e =>
    if e.etype == EV_ABS && e.code == ABS_MT_POSITION_X then some e.value
    else none

/-- The pairwise bookkeeping invariant of the emitter's three slot
structures. -/
def SlotInv (st : Driver) : Prop :=
  ∀ s : Int,
    ((st.last_input_position s).isSome ↔ (st.last_output_position s).isSome) ∧
    (s ∈ st.touched_slots → (st.last_input_position s).isSome)

/-! ## Concrete scenario data (spec section 8) -/

/-- The device admitted in scenario S1. -/
def phoneDevice : Device := ⟨"phone", "10.0.0.7", 1080, 2400⟩

/-- A stand-in for the external `xxh3_64` digest: any fixed pure function
of the seed works for the admission claims, which only compare digests. -/
def constHash : String → Nat := fun _ => 42

/-- A `DiscoverService` whose admitted map already contains `10.0.0.7`
(the situation after scenario S1). -/
def dupSvc : DiscoverService :=
  ⟨"s3cret", fun ip => if ip = "10.0.0.7" then some phoneDevice else none,
   [1, 2, 3]⟩

/-- A `DiscoverValidation` whose checksum matches `constHash` of the seed. -/
def dupDv : DiscoverValidation := ⟨42, 0, "phone2", "rk", 1080, 2400⟩

/-- A `DiscoverValidation` whose checksum does not match. -/
def badDv : DiscoverValidation := ⟨7, 0, "phone2", "rk", 1080, 2400⟩

/-- A `DiscoverService` with an empty admitted map (the situation before
scenario S1). -/
def freshSvc : DiscoverService := ⟨"s3cret", fun _ => none, [1, 2, 3]⟩

/-! ## Helper lemmas -/

theorem i64wrap_id (x : Int) (h1 : -(2 ^ 63) ≤ x) (h2 : x < 2 ^ 63) :
    i64wrap x = x := by
  unfold i64wrap
  have h3 : (0 : Int) ≤ x + 2 ^ 63 := by omega
  have h4 : x + 2 ^ 63 < 2 ^ 64 := by omega
  rw [Int.emod_eq_of_lt h3 h4]
  ring

theorem u64AsI64_small (n : Nat) (h : n < 2 ^ 63) : u64AsI64 n = (n : Int) := by
  unfold u64AsI64
  rw [if_pos]
  exact_mod_cast h

theorem roundHalfAway_err (q : ℚ) : |((roundHalfAway q : Int) : ℚ) - q| ≤ 1 / 2 := by
  unfold roundHalfAway
  by_cases h : 0 ≤ q
  · rw [if_pos h]
    have h1 : ((⌊q + 1 / 2⌋ : Int) : ℚ) ≤ q + 1 / 2 := Int.floor_le _
    have h2 : q + 1 / 2 - 1 < ((⌊q + 1 / 2⌋ : Int) : ℚ) := Int.sub_one_lt_floor _
    rw [abs_le]
    constructor <;> linarith
  · rw [if_neg h]
    have h1 : ((⌊-q + 1 / 2⌋ : Int) : ℚ) ≤ -q + 1 / 2 := Int.floor_le _
    have h2 : -q + 1 / 2 - 1 < ((⌊-q + 1 / 2⌋ : Int) : ℚ) := Int.sub_one_lt_floor _
    rw [abs_le]
    constructor <;> push_cast <;> linarith

/-! ## Claim theorems -/

/-- C10: if the varint length prefix decodes to 0 the frame reader fails
with the length-check error before reading any body bytes, and every
accepted frame body has between 1 and 4096 bytes (the `is_valid_message_
length` predicate), so a zero-length frame is never delivered. -/
theorem c10_zero_length_frame_rejected :
    (∀ l rest, read_varint l 0 0 = .ok (0, rest) →
        readPrefixedMessage l = .error ("Invalid message length: " ++ toString 0)) ∧
    (∀ l body rest, readPrefixedMessage l = .ok (body, rest) →
        1 ≤ body.length ∧ body.length ≤ 4096 ∧
          is_valid_message_length body.length = true) := by
  constructor
  · intro l rest h
    unfold readPrefixedMessage
    rw [h]
    simp
  · intro l body rest h
    unfold readPrefixedMessage at h
    split at h
    · exact absurd h (by simp)
    · rename_i len r hv
      split at h
      · exact absurd h (by simp)
      · rename_i hz
        push_neg at hz
        unfold read_exact_bytes at h
        split at h
        · rename_i hl
          injection h with hb
          rw [Prod.mk.injEq] at hb
          obtain ⟨hb1, hb2⟩ := hb
          subst hb1
          have hlen : (r.take len).length = len := by
            simp [List.length_take, Nat.min_eq_left hl]
          rw [hlen]
          refine ⟨by omega, by omega, ?_⟩
          simp only [is_valid_message_length, MAX_MESSAGE_LENGTH,
            Bool.and_eq_true, decide_eq_true_eq]
          omega
        · exact absurd h (by simp)

/-- Witness for C10 at concrete streams: `[0, 9]` carries a zero length
prefix and is rejected; `[2, 7, 8]` is accepted with a 2-byte body. -/
theorem c10_witness :
    (readPrefixedMessage [0, 9] =
        .error ("Invalid message length: " ++ toString 0)) ∧
    (1 ≤ ([7, 8] : List Nat).length ∧ ([7, 8] : List Nat).length ≤ 4096 ∧
        is_valid_message_length ([7, 8] : List Nat).length = true) :=
  ⟨c10_zero_length_frame_rejected.1 [0, 9] [9] rfl,
   c10_zero_length_frame_rejected.2 [2, 7, 8] [7, 8] [] rfl⟩

/-- C7: `record_packet` returns `None` exactly when
`server_ts_µs − (client_ts_ms·1000 − offset_ms·1000)` is negative, and
otherwise the returned sample's current latency equals that difference
(stated under bounds keeping the source's `i64` arithmetic away from
wraparound). -/
theorem c7_record_packet_latency (st : RealtimeLatencyTracker) (seq : Nat)
    (phone_ts_ms : Int) (server_ts_us : Nat)
    (hp : |phone_ts_ms| ≤ 2 ^ 50) (ho : |st.clock_offset_ms| ≤ 2 ^ 50)
    (hs : server_ts_us < 2 ^ 62) :
    ((st.record_packet seq phone_ts_ms server_ts_us).2 = none ↔
        (server_ts_us : Int) - (phone_ts_ms * 1000 - st.clock_offset_ms * 1000) < 0) ∧
    ∀ d, (st.record_packet seq phone_ts_ms server_ts_us).2 = some d →
        (d.current_latency_us : Int) =
          (server_ts_us : Int) - (phone_ts_ms * 1000 - st.clock_offset_ms * 1000) := by
  rw [abs_le] at hp ho
  have hs' : (server_ts_us : Int) < 2 ^ 62 := by exact_mod_cast hs
  have hns : (0 : Int) ≤ (server_ts_us : Int) := Int.natCast_nonneg _
  have e1 : i64wrap (phone_ts_ms * 1000) = phone_ts_ms * 1000 :=
    i64wrap_id _ (by omega) (by omega)
  have e2 : i64wrap (st.clock_offset_ms * 1000) = st.clock_offset_ms * 1000 :=
    i64wrap_id _ (by omega) (by omega)
  have e3 : i64wrap (phone_ts_ms * 1000 - st.clock_offset_ms * 1000) =
      phone_ts_ms * 1000 - st.clock_offset_ms * 1000 :=
    i64wrap_id _ (by omega) (by omega)
  have e4 : u64AsI64 server_ts_us = (server_ts_us : Int) :=
    u64AsI64_small _ (by omega)
  have e5 : i64wrap ((server_ts_us : Int) -
        (phone_ts_ms * 1000 - st.clock_offset_ms * 1000)) =
      (server_ts_us : Int) - (phone_ts_ms * 1000 - st.clock_offset_ms * 1000) :=
    i64wrap_id _ (by omega) (by omega)
  simp only [RealtimeLatencyTracker.record_packet, e1, e2, e3, e4, e5]
  by_cases hL : (server_ts_us : Int) -
      (phone_ts_ms * 1000 - st.clock_offset_ms * 1000) < 0
  · rw [if_pos hL]
    refine ⟨by simpa using hL, ?_⟩
    intro d h
    exact absurd h (by simp)
  · rw [if_neg hL]
    refine ⟨by simpa using hL, ?_⟩
    intro d h
    dsimp only [] at h
    injection h with h1
    subst h1
    dsimp only []
    rw [Int.toNat_of_nonneg (by omega)]

/-- Witness for C7: offset 100 ms, client timestamp 1000 ms, server receive
time 1 200 000 µs — the latency is non-negative and the sample carries
300 000 µs. -/
theorem c7_witness :
    ((((RealtimeLatencyTracker.new 100).set_clock_offset 100).record_packet
          1 1000 1200000).2 = none ↔
        (1200000 : Int) - (1000 * 1000 - 100 * 1000) < 0) ∧
    ∀ d, (((RealtimeLatencyTracker.new 100).set_clock_offset 100).record_packet
          1 1000 1200000).2 = some d →
        (d.current_latency_us : Int) = (1200000 : Int) - (1000 * 1000 - 100 * 1000) :=
  c7_record_packet_latency ((RealtimeLatencyTracker.new 100).set_clock_offset 100)
    1 1000 1200000 (by decide) (by decide) (by decide)

/-- The frames an admission exchange starting with a `DiscoverValidation`
writes, in all three branches. -/
theorem admission_writes_eq (hash : String → Nat) (svc : DiscoverService)
    (dv : DiscoverValidation) (ip : String) (now : Nat) :
    (admission_exchange hash svc (.discoverValidation dv) ip now).2 =
      if dv.checksum = hash svc.checksum_seed then
        (if (svc.listening_device ip).isSome then [Payload.reject ⟨1⟩]
         else [Payload.welcome ⟨svc.login_public_key, now⟩])
      else
        [Payload.reject ⟨ErrorCode.helloCheckSumMismatch.code⟩,
         Payload.reject ⟨1⟩] := by
  by_cases hc : dv.checksum = hash svc.checksum_seed
  · by_cases hm : (svc.listening_device ip).isSome
    · simp [admission_exchange, handle_client_connection,
        discover_validation_handler, hc, hm]
    · simp [admission_exchange, handle_client_connection,
        discover_validation_handler, hc, hm]
  · simp [admission_exchange, handle_client_connection,
      discover_validation_handler, hc]

/-- C8 (amended): the latency tracker's clock offset is assigned on every
`RegisterDevice` frame of a connection — each time to that frame's
`client_send_ts_ms − server_recv_ts_ms` — so a second `RegisterDevice`
overwrites the offset (last-wins), not first-wins. -/
theorem c8_clock_offset_every_register :
    (∀ (st : ConnState) (ts : Nat) (d : RegisterDevice),
        ((handle_message st ts (.registerDevice d)).1).tracker.clock_offset_ms =
          i64wrap (d.send_ts - u64AsI64 (ts / 1000))) ∧
    (∀ (st : ConnState) (d1 : RegisterDevice) (ts1 : Nat)
        (d2 : RegisterDevice) (ts2 : Nat),
        (handle_stream st
            [(.registerDevice d1, ts1),
             (.registerDevice d2, ts2)]).tracker.clock_offset_ms =
          i64wrap (d2.send_ts - u64AsI64 (ts2 / 1000))) :=
  ⟨fun _ _ _ => rfl, fun _ _ _ _ _ => rfl⟩

/-- Counterexample for C8 as stated: two `RegisterDevice` frames on one
connection (client ts 1000 ms at server ms 900, then client ts 2000 ms at
server ms 1950).  The claim says the offset stays at the first value 100;
the code leaves it at the second value 50. -/
theorem c8_counterexample :
    (handle_stream ⟨fun _ => none, RealtimeLatencyTracker.new 100, []⟩
        [(.registerDevice ⟨"phone", "10.0.0.7", 1080, 2400, 1000⟩, 900000),
         (.registerDevice ⟨"phone", "10.0.0.7", 1080, 2400, 2000⟩,
          1950000)]).tracker.clock_offset_ms = 50 ∧ (50 : Int) ≠ 100 := by
  exact ⟨by decide, by decide⟩

/-- Counterexample for C4 as stated: a `Cancel` pointer with id 5 maps to a
`TouchPoint` with `tracking_id = 5`, not −1 (`pointer.event_type !=
TouchEventType::Up as i32` holds for `Cancel`, so the id is kept). -/
theorem c4_counterexample :
    pointer_to_touch_point ⟨5, TouchEventType.cancel.code, 3, 4⟩ =
      some ⟨5, 5, 3, 4, .up⟩ ∧ (5 : Int) ≠ -1 :=
  ⟨by decide, by decide⟩

/-- C4 (amended): `Unspecified` and unknown event types produce no
`TouchPoint`; Down and Move produce their status with `tracking_id = id`;
Up produces status Up with `tracking_id = −1`; Cancel produces status Up
but keeps `tracking_id = id`; every produced point has `slot = id` and the
positions cast `as i32`. -/
theorem c4_pointer_mapping :
    (∀ (id : Int) (ax ay : Nat),
        pointer_to_touch_point ⟨id, TouchEventType.unspecified.code, ax, ay⟩ = none) ∧
    (∀ (n id : Int) (ax ay : Nat), TouchEventType.try_from n = none →
        pointer_to_touch_point ⟨id, n, ax, ay⟩ = none) ∧
    (∀ (id : Int) (ax ay : Nat),
        pointer_to_touch_point ⟨id, TouchEventType.down.code, ax, ay⟩ =
          some ⟨id, id, toI32 ax, toI32 ay, .down⟩) ∧
    (∀ (id : Int) (ax ay : Nat),
        pointer_to_touch_point ⟨id, TouchEventType.move.code, ax, ay⟩ =
          some ⟨id, id, toI32 ax, toI32 ay, .move⟩) ∧
    (∀ (id : Int) (ax ay : Nat),
        pointer_to_touch_point ⟨id, TouchEventType.up.code, ax, ay⟩ =
          some ⟨id, -1, toI32 ax, toI32 ay, .up⟩) ∧
    (∀ (id : Int) (ax ay : Nat),
        pointer_to_touch_point ⟨id, TouchEventType.cancel.code, ax, ay⟩ =
          some ⟨id, id, toI32 ax, toI32 ay, .up⟩) := by
  refine ⟨fun id ax ay => rfl, ?_, fun id ax ay => rfl, fun id ax ay => rfl,
    fun id ax ay => rfl, fun id ax ay => rfl⟩
  intro n id ax ay h
  simp [pointer_to_touch_point, h]

/-- Witness for C4: an unknown event type 99 is skipped, and an Up pointer
gets tracking id −1. -/
theorem c4_witness :
    pointer_to_touch_point ⟨7, 99, 2, 3⟩ = none ∧
    pointer_to_touch_point ⟨7, TouchEventType.up.code, 2, 3⟩ =
      some ⟨7, -1, toI32 2, toI32 3, .up⟩ :=
  ⟨c4_pointer_mapping.2.1 99 7 2 3 rfl, c4_pointer_mapping.2.2.2.2.1 7 2 3⟩

/-- C6: `wrap` fails with "unsupported message type" on the
`RegisterDevice`, `SettingRequest` and `Exit` variants (its downcast chain
only accepts `Welcome`, `Reject`, `HeartBeat`, `TouchPacket` and
`DiscoverValidation`), although the repository's own client sends `Exit`
through it; so encoding is not total over the envelope variants. -/
theorem c6_wrap_unsupported :
    wrap (.exitMsg ⟨0⟩) = .error "unsupported message type" ∧
    wrap (.registerDevice ⟨"phone", "10.0.0.7", 1080, 2400, 0⟩) =
      .error "unsupported message type" ∧
    wrap (.settingRequest ⟨none⟩) = .error "unsupported message type" ∧
    wrap (.heartBeat ⟨⟩) = .ok (wrapperEncode (.heartBeat ⟨⟩)) :=
  ⟨rfl, rfl, rfl, rfl⟩

/-- C1: on a duplicate-IP admission (valid checksum, source IP already
admitted) the only frame actually written is the outer generic
`Reject { reason: 1 }` — the `Reject{RepeatedlyAddingDevices}` send future
of `discover_validation_handler` is dropped without `.await` and never
reaches the stream — and the admitted map is unchanged. -/
theorem c1_duplicate_ip_behavior :
    (admission_exchange constHash dupSvc (.discoverValidation dupDv)
        "10.0.0.7" 5).2 = [Payload.reject ⟨1⟩] ∧
    (admission_exchange constHash dupSvc (.discoverValidation dupDv)
        "10.0.0.7" 5).1 = dupSvc.listening_device ∧
    Payload.reject ⟨ErrorCode.repeatedlyAddingDevices.code⟩ ∉
      (admission_exchange constHash dupSvc (.discoverValidation dupDv)
        "10.0.0.7" 5).2 :=
  ⟨rfl, rfl, by decide⟩

/-- Counterexample for C2 as stated: on a checksum mismatch the server
writes two reply frames on the admission connection, not one (the
handler's `Reject{HelloCheckSumMismatch}` and then the outer
`Reject { reason: 1 }`). -/
theorem c2_counterexample :
    (admission_exchange constHash dupSvc (.discoverValidation badDv)
        "10.0.0.9" 5).2.length = 2 ∧ (2 : Nat) ≠ 1 :=
  ⟨rfl, by decide⟩

/-- C2 (amended): on an admission connection that received one
`DiscoverValidation`, every written reply is a `Welcome` or a `Reject`,
and a `Welcome` is written only on successful admission (matching checksum
and an IP not yet in the map); when the checksum matches, exactly one
reply is written — `Welcome{cert, now}` for a new IP, the single generic
`Reject { reason: 1 }` for a duplicate IP; when it mismatches, exactly two
`Reject` frames are written (`HelloCheckSumMismatch`, then the generic
one). -/
theorem c2_reply_discipline (hash : String → Nat) (svc : DiscoverService)
    (dv : DiscoverValidation) (ip : String) (now : Nat) :
    (∀ f ∈ (admission_exchange hash svc (.discoverValidation dv) ip now).2,
        (∃ w, f = Payload.welcome w) ∨ (∃ j, f = Payload.reject j)) ∧
    (dv.checksum = hash svc.checksum_seed →
        (svc.listening_device ip).isSome = false →
        (admission_exchange hash svc (.discoverValidation dv) ip now).2 =
          [Payload.welcome ⟨svc.login_public_key, now⟩]) ∧
    (dv.checksum = hash svc.checksum_seed →
        (svc.listening_device ip).isSome = true →
        (admission_exchange hash svc (.discoverValidation dv) ip now).2 =
          [Payload.reject ⟨1⟩]) ∧
    (dv.checksum = hash svc.checksum_seed →
        (admission_exchange hash svc (.discoverValidation dv) ip now).2.length = 1) ∧
    (dv.checksum ≠ hash svc.checksum_seed →
        (admission_exchange hash svc (.discoverValidation dv) ip now).2 =
          [Payload.reject ⟨ErrorCode.helloCheckSumMismatch.code⟩,
           Payload.reject ⟨1⟩]) ∧
    (∀ w, Payload.welcome w ∈
        (admission_exchange hash svc (.discoverValidation dv) ip now).2 →
        dv.checksum = hash svc.checksum_seed ∧
          (svc.listening_device ip).isSome = false) := by
  rw [admission_writes_eq hash svc dv ip now]
  by_cases hc : dv.checksum = hash svc.checksum_seed
  · rw [if_pos hc]
    by_cases hm : (svc.listening_device ip).isSome = true
    · rw [if_pos hm]
      refine ⟨?_, ?_, fun _ _ => rfl, fun _ => rfl, fun hn => absurd hc hn, ?_⟩
      · intro f hf
        simp only [List.mem_singleton] at hf
        exact Or.inr ⟨⟨1⟩, hf⟩
      · intro _ hfalse
        rw [hfalse] at hm
        exact absurd hm (by simp)
      · intro w hw
        simp at hw
    · rw [if_neg hm]
      have hm' : (svc.listening_device ip).isSome = false := by
        simpa using hm
      refine ⟨?_, fun _ _ => rfl, ?_, fun _ => rfl, fun hn => absurd hc hn, ?_⟩
      · intro f hf
        simp only [List.mem_singleton] at hf
        exact Or.inl ⟨⟨svc.login_public_key, now⟩, hf⟩
      · intro _ htrue
        exact absurd htrue hm
      · intro w _
        exact ⟨hc, hm'⟩
  · rw [if_neg hc]
    refine ⟨?_, fun he _ => absurd he hc, fun he _ => absurd he hc,
      fun he => absurd he hc, fun _ => rfl, ?_⟩
    · intro f hf
      simp only [List.mem_cons, List.mem_singleton, List.not_mem_nil, or_false] at hf
      rcases hf with hf | hf
      · exact Or.inr ⟨⟨ErrorCode.helloCheckSumMismatch.code⟩, hf⟩
      · exact Or.inr ⟨⟨1⟩, hf⟩
    · intro w hw
      simp at hw

/-- Witness for C2, exercising all three branches at concrete inputs: the
fresh-map exchange writes exactly `[Welcome]`, the duplicate-IP exchange
writes exactly `[Reject{1}]`, the mismatch exchange writes the two
`Reject` frames, and the written `Welcome` is certified to come from a
successful admission. -/
theorem c2_witness :
    ((admission_exchange constHash freshSvc (.discoverValidation dupDv)
        "10.0.0.7" 5).2 = [Payload.welcome ⟨[1, 2, 3], 5⟩]) ∧
    ((admission_exchange constHash dupSvc (.discoverValidation dupDv)
        "10.0.0.7" 5).2 = [Payload.reject ⟨1⟩]) ∧
    ((admission_exchange constHash dupSvc (.discoverValidation badDv)
        "10.0.0.9" 5).2 =
      [Payload.reject ⟨ErrorCode.helloCheckSumMismatch.code⟩,
       Payload.reject ⟨1⟩]) ∧
    (dupDv.checksum = constHash freshSvc.checksum_seed ∧
      (freshSvc.listening_device "10.0.0.7").isSome = false) :=
  ⟨(c2_reply_discipline constHash freshSvc dupDv "10.0.0.7" 5).2.1 rfl rfl,
   (c2_reply_discipline constHash dupSvc dupDv "10.0.0.7" 5).2.2.1
     rfl (by decide),
   (c2_reply_discipline constHash dupSvc badDv "10.0.0.9" 5).2.2.2.2.1
     (by decide),
   (c2_reply_discipline constHash freshSvc dupDv "10.0.0.7" 5).2.2.2.2.2
     ⟨[1, 2, 3], 5⟩ (by decide)⟩

theorem slotInv_new : SlotInv Driver.new :=
  fun s => ⟨Iff.rfl, fun hs => absurd hs (Finset.not_mem_empty s)⟩

theorem slotInv_step (st : Driver) (p : TouchPoint) (h : SlotInv st) :
    SlotInv (Driver.emit_step st p).1 := by
  rcases p with ⟨slot, tid, x, y, status⟩
  cases status
  · -- Down
    intro s
    dsimp only [Driver.emit_step, Driver.emit_point_down]
    by_cases hs : s = slot
    · simp [mapInsert, hs]
    · simp only [mapInsert, if_neg hs, Finset.mem_insert]
      exact ⟨(h s).1, fun hm => (h s).2 (hm.resolve_left hs)⟩
  · -- Up
    intro s
    dsimp only [Driver.emit_step, Driver.emit_point_up]
    by_cases hs : s = slot
    · simp [mapRemove, hs]
    · simp only [mapRemove, if_neg hs, Finset.mem_erase]
      exact ⟨(h s).1, fun hm => (h s).2 hm.2⟩
  · -- Move
    intro s
    dsimp only [Driver.emit_step, Driver.emit_point_move]
    by_cases hs : s = slot
    · simp [mapInsert, hs]
    · simp only [mapInsert, if_neg hs]
      exact ⟨(h s).1, fun hm => (h s).2 hm⟩

theorem slotInv_points (pts : List TouchPoint) :
    ∀ st : Driver, SlotInv st → SlotInv (Driver.emit_points st pts).1 := by
  induction pts with
  | nil => intro st h; exact h
  | cons p ps ih => intro st h; exact ih _ (slotInv_step st p h)

theorem slotInv_run (events : List TouchPoint) :
    ∀ st : Driver, SlotInv st → SlotInv (Driver.run_events st events).1 := by
  induction events with
  | nil => intro st h; exact h
  | cons p ps ih => intro st h; exact ih _ (slotInv_step st p h)

/-- C3 (amended): after any event sequence from the initial emitter state,
the last-input and last-output maps always have the same keys, and every
slot in the touched-set is a key of both; the converse direction of the
claim fails (see the counterexample) because a Move for an untouched slot
inserts it into both maps without entering the touched-set. -/
theorem c3_slot_bookkeeping (events : List TouchPoint) (s : Int) :
    (((Driver.run_events Driver.new events).1.last_input_position s).isSome ↔
      ((Driver.run_events Driver.new events).1.last_output_position s).isSome) ∧
    (s ∈ (Driver.run_events Driver.new events).1.touched_slots →
      ((Driver.run_events Driver.new events).1.last_input_position s).isSome) :=
  slotInv_run events Driver.new slotInv_new s

/-- Witness for C3: after a single Down on slot 0 the slot is touched and
the theorem yields its last-input entry. -/
theorem c3_witness :
    ((Driver.run_events Driver.new
        [⟨0, 0, 10, 10, .down⟩]).1.last_input_position 0).isSome :=
  (c3_slot_bookkeeping [⟨0, 0, 10, 10, .down⟩] 0).2 (by decide)

/-- Counterexample for C3 as stated: a single Move event on the untouched
slot 0 leaves the slot outside the touched-set yet present in both
position maps, so the three-way membership equivalence fails. -/
theorem c3_counterexample :
    0 ∉ (Driver.run_events Driver.new [⟨0, 0, 5, 5, .move⟩]).1.touched_slots ∧
    ((Driver.run_events Driver.new
        [⟨0, 0, 5, 5, .move⟩]).1.last_input_position 0).isSome = true ∧
    ((Driver.run_events Driver.new
        [⟨0, 0, 5, 5, .move⟩]).1.last_output_position 0).isSome = true := by
  refine ⟨by decide, ?_, ?_⟩ <;> decide

theorem filter_key_leave :
    ∀ a, (slot_leave_events a).filter isKeyEvent = slot_leave_events a
  | 0 => rfl
  | 1 => rfl
  | 2 => rfl
  | 3 => rfl
  | 4 => rfl
  | 5 => rfl
  | _ + 6 => rfl

theorem filter_key_enter :
    ∀ a, (slot_enter_events a).filter isKeyEvent = slot_enter_events a
  | 0 => rfl
  | 1 => rfl
  | 2 => rfl
  | 3 => rfl
  | 4 => rfl
  | 5 => rfl
  | _ + 6 => rfl

theorem filter_key_slot_events (a b : Nat) :
    (Driver.get_slot_changed_events a b).filter isKeyEvent =
      Driver.get_slot_changed_events a b := by
  unfold Driver.get_slot_changed_events
  split
  · rfl
  · rw [List.filter_append, filter_key_leave, filter_key_enter]

theorem filter_key_points (pts : List TouchPoint) :
    ∀ st : Driver, (Driver.emit_points st pts).2.filter isKeyEvent = [] := by
  induction pts with
  | nil => intro st; rfl
  | cons p ps ih =>
      intro st
      show ((Driver.emit_step st p).2 ++
          (Driver.emit_points (Driver.emit_step st p).1 ps).2).filter isKeyEvent = []
      rw [List.filter_append, ih]
      rw [List.append_nil]
      rcases p with ⟨slot, tid, x, y, status⟩
      cases status
      · rfl
      · rfl
      · dsimp only [Driver.emit_step, Driver.emit_point_move]
        rw [List.filter_append]
        split
        · rfl
        · rfl

/-- C5: the key events a batch appends are exactly those determined by the
pair of touched-set sizes before and after the batch
(`get_slot_changed_events`); equal sizes contribute none, sizes above 5
contribute none, and the concrete one-batch sequence 0 → 2 → 0 (two Downs
then two Ups) emits zero tool-count key events. -/
theorem c5_tool_count_keys :
    (∀ (st : Driver) (pts : List TouchPoint),
        (Driver.emit_multitouch st pts).2.filter isKeyEvent =
          Driver.get_slot_changed_events st.touched_slots.card
            (Driver.emit_multitouch st pts).1.touched_slots.card) ∧
    (∀ a, Driver.get_slot_changed_events a a = []) ∧
    (∀ a b, Driver.get_slot_changed_events (a + 6) (b + 6) = []) ∧
    (Driver.emit_multitouch Driver.new
        [⟨0, 0, 100, 100, .down⟩, ⟨1, 1, 200, 200, .down⟩,
         ⟨0, -1, 0, 0, .up⟩, ⟨1, -1, 0, 0, .up⟩]).2.filter isKeyEvent = [] := by
  refine ⟨?_, ?_, ?_, ?_⟩
  · intro st pts
    simp only [Driver.emit_multitouch]
    rw [List.filter_append, List.filter_append, filter_key_points,
      filter_key_slot_events]
    simp [isKeyEvent, EV_SYN, EV_KEY, SYN_REPORT]
  · intro a
    unfold Driver.get_slot_changed_events
    rw [if_pos rfl]
  · intro a b
    unfold Driver.get_slot_changed_events
    split
    · rfl
    · rfl
  · decide

theorem err_transfer (ox px t1 t q2 q1 : ℚ) (h2 : |ox - (px + t1)| ≤ q2)
    (h1 : |px - t| ≤ q1) : |ox - (t + t1)| ≤ q2 + q1 := by
  calc |ox - (t + t1)| ≤ |ox - (px + t1)| + |(px + t1) - (t + t1)| :=
        abs_sub_le _ _ _
    _ = |ox - (px + t1)| + |px - t| := by rw [add_sub_add_right_eq_sub]
    _ ≤ q2 + q1 := add_le_add h2 h1

/-- The accumulated rounding error of a run of Move events on one slot:
starting from a state whose last-input for slot `s` is `(a, b)` and whose
last-output is `(c, d)`, after the Moves the last-output differs from the
exact accumulation `c + k·(xₙ − a)` by at most half a unit per Move. -/
theorem move_run_out (k : ℚ) (s tid : Int) (moves : List (Int × Int)) :
    ∀ (st : Driver) (a b c d : Int),
      st.sensitivity = k → st.invert_x = false → st.invert_y = false →
      st.last_input_position s = some (a, b) →
      st.last_output_position s = some (c, d) →
      ∃ ox oy,
        (Driver.run_events st
            (moves.map fun m =>
              (⟨s, tid, m.1, m.2, .move⟩ : TouchPoint))).1.last_output_position s =
          some (ox, oy) ∧
        |(ox : ℚ) - ((c : ℚ) + k * (((moves.getLastD (a, b)).1 : ℚ) - (a : ℚ)))| ≤
          (moves.length : ℚ) / 2 ∧
        |(oy : ℚ) - ((d : ℚ) + k * (((moves.getLastD (a, b)).2 : ℚ) - (b : ℚ)))| ≤
          (moves.length : ℚ) / 2 := by
  induction moves with
  | nil =>
      intro st a b c d hk hx hy hin hout
      refine ⟨c, d, hout, ?_, ?_⟩ <;> simp
  | cons m rest ih =>
      rcases m with ⟨mx, my⟩
      intro st a b c d hk hx hy hin hout
      have hout1 :
          (Driver.emit_point_move st
              (⟨s, tid, mx, my, .move⟩ : TouchPoint)).1.last_output_position s =
            some (roundHalfAway ((c : ℚ) + ((mx - a : ℤ) : ℚ) * k),
                  roundHalfAway ((d : ℚ) + ((my - b : ℤ) : ℚ) * k)) := by
        dsimp only [Driver.emit_point_move]
        rw [hin, hout, hx, hy, hk]
        simp [mapInsert]
      have hin1 :
          (Driver.emit_point_move st
              (⟨s, tid, mx, my, .move⟩ : TouchPoint)).1.last_input_position s =
            some (mx, my) := by
        dsimp only [Driver.emit_point_move]
        simp [mapInsert]
      obtain ⟨ox, oy, h1, h2, h3⟩ :=
        ih (Driver.emit_point_move st (⟨s, tid, mx, my, .move⟩ : TouchPoint)).1
          mx my (roundHalfAway ((c : ℚ) + ((mx - a : ℤ) : ℚ) * k))
          (roundHalfAway ((d : ℚ) + ((my - b : ℤ) : ℚ) * k))
          hk hx hy hin1 hout1
      refine ⟨ox, oy, h1, ?_, ?_⟩
      · have hgl : (((mx, my) :: rest).getLastD (a, b)) = rest.getLastD (mx, my) :=
          List.getLastD_cons _ _ _
        rw [hgl]
        have h1' :
            |((roundHalfAway ((c : ℚ) + ((mx - a : ℤ) : ℚ) * k) : ℤ) : ℚ) -
              ((c : ℚ) + k * ((mx : ℚ) - (a : ℚ)))| ≤ 1 / 2 := by
          have herr := roundHalfAway_err ((c : ℚ) + ((mx - a : ℤ) : ℚ) * k)
          have heq : (c : ℚ) + ((mx - a : ℤ) : ℚ) * k =
              (c : ℚ) + k * ((mx : ℚ) - (a : ℚ)) := by push_cast; ring
          nth_rewrite 2 [heq] at herr
          exact herr
        have htr := err_transfer (ox : ℚ)
          ((roundHalfAway ((c : ℚ) + ((mx - a : ℤ) : ℚ) * k) : ℤ) : ℚ)
          (k * (((rest.getLastD (mx, my)).1 : ℚ) - (mx : ℚ)))
          ((c : ℚ) + k * ((mx : ℚ) - (a : ℚ)))
          ((rest.length : ℚ) / 2) (1 / 2) h2 h1'
        have hre : (c : ℚ) + k * ((mx : ℚ) - (a : ℚ)) +
            k * (((rest.getLastD (mx, my)).1 : ℚ) - (mx : ℚ)) =
            (c : ℚ) + k * (((rest.getLastD (mx, my)).1 : ℚ) - (a : ℚ)) := by ring
        rw [hre] at htr
        have hlen : ((((mx, my) :: rest).length : ℚ)) = (rest.length : ℚ) + 1 := by
          push_cast [List.length_cons]
          ring
        rw [hlen]
        calc |(ox : ℚ) - ((c : ℚ) + k * (((rest.getLastD (mx, my)).1 : ℚ) - (a : ℚ)))| ≤
              (rest.length : ℚ) / 2 + 1 / 2 := htr
          _ = ((rest.length : ℚ) + 1) / 2 := by ring
      · have hgl : (((mx, my) :: rest).getLastD (a, b)) = rest.getLastD (mx, my) :=
          List.getLastD_cons _ _ _
        rw [hgl]
        have h1' :
            |((roundHalfAway ((d : ℚ) + ((my - b : ℤ) : ℚ) * k) : ℤ) : ℚ) -
              ((d : ℚ) + k * ((my : ℚ) - (b : ℚ)))| ≤ 1 / 2 := by
          have herr := roundHalfAway_err ((d : ℚ) + ((my - b : ℤ) : ℚ) * k)
          have heq : (d : ℚ) + ((my - b : ℤ) : ℚ) * k =
              (d : ℚ) + k * ((my : ℚ) - (b : ℚ)) := by push_cast; ring
          nth_rewrite 2 [heq] at herr
          exact herr
        have htr := err_transfer (oy : ℚ)
          ((roundHalfAway ((d : ℚ) + ((my - b : ℤ) : ℚ) * k) : ℤ) : ℚ)
          (k * (((rest.getLastD (mx, my)).2 : ℚ) - (my : ℚ)))
          ((d : ℚ) + k * ((my : ℚ) - (b : ℚ)))
          ((rest.length : ℚ) / 2) (1 / 2) h3 h1'
        have hre : (d : ℚ) + k * ((my : ℚ) - (b : ℚ)) +
            k * (((rest.getLastD (mx, my)).2 : ℚ) - (my : ℚ)) =
            (d : ℚ) + k * (((rest.getLastD (mx, my)).2 : ℚ) - (b : ℚ)) := by ring
        rw [hre] at htr
        have hlen : ((((mx, my) :: rest).length : ℚ)) = (rest.length : ℚ) + 1 := by
          push_cast [List.length_cons]
          ring
        rw [hlen]
        calc |(oy : ℚ) - ((d : ℚ) + k * (((rest.getLastD (mx, my)).2 : ℚ) - (b : ℚ)))| ≤
              (rest.length : ℚ) / 2 + 1 / 2 := htr
          _ = ((rest.length : ℚ) + 1) / 2 := by ring

/-- C9: with sensitivity k and inversion off, a Down at (x₀, y₀) followed
by Moves to (x₁, y₁), …, (xₙ, yₙ) on a fresh slot leaves last-output within
n of (x₀ + k·(xₙ − x₀), y₀ + k·(yₙ − y₀)) per axis (the proof gives n/2),
and the concrete k = 2 drag over x = 10, 20, 30 emits exactly the
ABS_MT_POSITION_X values 10, 30, 50. -/
theorem c9_sensitivity_law :
    (∀ (k : ℚ) (s tid x0 y0 : Int) (moves : List (Int × Int)),
      ∃ ox oy,
        (Driver.run_events (Driver.new.set_sensitivity k)
            ((⟨s, tid, x0, y0, .down⟩ : TouchPoint) ::
              moves.map fun m =>
                (⟨s, tid, m.1, m.2, .move⟩ : TouchPoint))).1.last_output_position s =
          some (ox, oy) ∧
        |(ox : ℚ) - ((x0 : ℚ) + k * (((moves.getLastD (x0, y0)).1 : ℚ) - (x0 : ℚ)))| ≤
          (moves.length : ℚ) ∧
        |(oy : ℚ) - ((y0 : ℚ) + k * (((moves.getLastD (x0, y0)).2 : ℚ) - (y0 : ℚ)))| ≤
          (moves.length : ℚ)) ∧
    mtPositionXValues (Driver.run_events (Driver.new.set_sensitivity 2)
        [⟨0, 0, 10, 10, .down⟩, ⟨0, 0, 20, 10, .move⟩,
         ⟨0, 0, 30, 10, .move⟩]).2 = [10, 30, 50] := by
  constructor
  · intro k s tid x0 y0 moves
    have hin :
        (Driver.emit_step (Driver.new.set_sensitivity k)
            (⟨s, tid, x0, y0, .down⟩ : TouchPoint)).1.last_input_position s =
          some (x0, y0) := by
      dsimp only [Driver.emit_step, Driver.emit_point_down]
      simp [mapInsert]
    have hout :
        (Driver.emit_step (Driver.new.set_sensitivity k)
            (⟨s, tid, x0, y0, .down⟩ : TouchPoint)).1.last_output_position s =
          some (x0, y0) := by
      dsimp only [Driver.emit_step, Driver.emit_point_down]
      simp [mapInsert]
    obtain ⟨ox, oy, h1, h2, h3⟩ :=
      move_run_out k s tid moves
        (Driver.emit_step (Driver.new.set_sensitivity k)
          (⟨s, tid, x0, y0, .down⟩ : TouchPoint)).1
        x0 y0 x0 y0 rfl rfl rfl hin hout
    have hhalf : ((moves.length : ℚ)) / 2 ≤ (moves.length : ℚ) := by
      have : (0 : ℚ) ≤ (moves.length : ℚ) := Nat.cast_nonneg _
      linarith
    exact ⟨ox, oy, h1, h2.trans hhalf, h3.trans hhalf⟩
  · simp only [Driver.run_events, Driver.emit_multitouch, Driver.emit_points,
      Driver.emit_step, Driver.emit_point_down, Driver.emit_point_move,
      Driver.emit_point_up, Driver.get_slot_changed_events, slot_leave_events,
      slot_enter_events, Driver.new, Driver.set_sensitivity, mapInsert,
      mtPositionXValues]
    norm_num [roundHalfAway]
    decide

end Touchpad
